import Mathlib

/-!
Verification of the ttp credential-vault core (src/ttp/crypto.py,
src/ttp/models.py, src/ttp/storage.py, and the duplication handler of
src/ttp/app.py) against its specification.

Modelling conventions (shallow embedding):
* Cryptographic primitives are modelled symbolically, as ideal primitives:
  PBKDF2 key derivation (`derive_key`) is an injective pairing of password
  and salt, and Fernet authenticated encryption is a free constructor
  carrying key, per-call nonce and plaintext, with `decrypt` succeeding
  exactly when the key matches.  A persisted byte blob is either empty,
  a well-formed Fernet token, or junk bytes that no key can decrypt.
* JSON values are the inductive `JVal`; the json.dumps/json.loads layer is
  represented by working with the structured value directly.
* Nondeterminism (os.urandom salts, Fernet nonces, uuid4 ids,
  datetime.now timestamps) is made explicit as parameters.
* The two persisted files (ttp_data/master.json, ttp_data/connections.enc)
  form the state `DataDir`; every store method is a function from state to
  result-and-state, translated statement by statement from the Python.
* Python exceptions that a method lets escape are an explicit constructor
  (for example `UnlockResult.noRecord` for the FileNotFoundError raised by
  reading a missing master.json); a method that is total in Python is a
  total Lean function.
-/

namespace TTP

/-- Salts are 16 random bytes, abstracted as a number. -/
abbrev Salt := Nat

/-- Symbolic model of a Fernet key produced by crypto.derive_key:
PBKDF2-HMAC-SHA256 over (password, salt) is idealised as an injective
pairing, so two derivations agree exactly when password and salt agree. -/
structure Key where
  password : String
  salt : Salt
deriving DecidableEq, Repr

/-- crypto.derive_key: derive a Fernet key from master password and salt. -/
def derive_key (master_password : String) (salt : Salt) : Key :=
  ⟨master_password, salt⟩

/-- A JSON value, the shape handled by models.Connection.to_dict /
from_dict and by storage's json.dumps / json.loads calls. -/
inductive JVal
  | s (v : String)
  | n (v : Int)
  | arr (vs : List JVal)
  | obj (fields : List (String × JVal))

/-- Plaintexts that occur in the system: the fixed verification constant
b"TTP_MASTER_VERIFY" of crypto.py, a UTF-8 JSON document, or any other
byte string (which json.loads cannot parse). -/
inductive Plain
  | verify
  | doc (j : JVal)
  | raw (v : Nat)

/-- A Fernet token: symbolic authenticated ciphertext.  It records the
key it was produced under, the fresh randomness of the call, and the
plaintext. -/
structure Ciphertext where
  key : Key
  nonce : Nat
  plain : Plain

/-- crypto.encrypt: Fernet(key).encrypt(data) with fresh randomness. -/
def encrypt (data : Plain) (key : Key) (nonce : Nat) : Ciphertext :=
  ⟨key, nonce, data⟩

/-- crypto.decrypt: Fernet(key).decrypt(data).  In the ideal model it
recovers the plaintext exactly when the key matches, and fails
(InvalidToken) otherwise. -/
def decrypt (c : Ciphertext) (key : Key) : Option Plain :=
  if c.key = key then some c.plain else none

/-- The bytes persisted in a file slot: zero-length, a well-formed Fernet
token, or junk bytes (anything that is not a well-formed token, such as a
bit-flipped token, which Fernet rejects for every key). -/
inductive Blob
  | empty
  | tok (c : Ciphertext)
  | junk (v : Nat)

/-- Decrypting raw file bytes: only a well-formed token under the matching
key decrypts; empty or junk bytes raise InvalidToken (here: none). -/
def decryptBlob (b : Blob) (key : Key) : Option Plain :=
  match b with
  | .tok c => decrypt c key
  | _ => none

/-- crypto.create_verify_token: encrypt the fixed constant under key. -/
def create_verify_token (key : Key) (nonce : Nat) : Ciphertext :=
  encrypt .verify key nonce

/-- crypto.verify_master_password: true iff the token decrypts under key
and the plaintext equals the fixed constant; InvalidToken gives false. -/
def verify_master_password (token : Blob) (key : Key) : Bool :=
  match decryptBlob token key with
  | some .verify => true
  | some _ => false
  | none => false

/-- models.Connection: the SSH connection profile dataclass. -/
structure Connection where
  name : String
  host : String
  port : Int
  auth_type : String
  username : String
  password : String
  key_path : String
  prompt : String
  sendln_param : String
  id : String
  created_at : String
  updated_at : String
deriving DecidableEq, Repr

/-- models.Connection.to_dict: dataclasses.asdict, fields in declaration
order. -/
def Connection.to_dict (c : Connection) : List (String × JVal) :=
  [("name", .s c.name), ("host", .s c.host), ("port", .n c.port),
   ("auth_type", .s c.auth_type), ("username", .s c.username),
   ("password", .s c.password), ("key_path", .s c.key_path),
   ("prompt", .s c.prompt), ("sendln_param", .s c.sendln_param),
   ("id", .s c.id), ("created_at", .s c.created_at),
   ("updated_at", .s c.updated_at)]

/-- Association lookup in a JSON object (Python dicts have unique keys, so
first-match lookup agrees with dict access). -/
def jlookup (k : String) : List (String × JVal) → Option JVal
  | [] => none
  | (k2, v) :: rest => if k = k2 then some v else jlookup k rest

/-- Read a string field: absent means the dataclass default; a present
value must be a string (typed shallow embedding of the untyped dataclass
constructor; a type mismatch is treated as a parse failure). -/
def getStr (d : List (String × JVal)) (k : String) (dflt : String) :
    Option String :=
  match jlookup k d with
  | none => some dflt
  | some (.s v) => some v
  | some _ => none

/-- Read an integer field, absent meaning the dataclass default. -/
def getInt (d : List (String × JVal)) (k : String) (dflt : Int) :
    Option Int :=
  match jlookup k d with
  | none => some dflt
  | some (.n v) => some v
  | some _ => none

/-- models.Connection.from_dict: keep only known keys, then build the
dataclass; a missing field takes its default (port 22, auth_type
"password", empty strings, and the default factories: a fresh uuid4 id
and datetime.now().isoformat() timestamps, passed here explicitly).
Unknown keys are never consulted, which is the filtering step. -/
def Connection.from_dict (data : List (String × JVal))
    (fresh_id fresh_created fresh_updated : String) : Option Connection := do
  let name ← getStr data "name" ""
  let host ← getStr data "host" ""
  let port ← getInt data "port" 22
  let auth_type ← getStr data "auth_type" "password"
  let username ← getStr data "username" ""
  let password ← getStr data "password" ""
  let key_path ← getStr data "key_path" ""
  let prompt ← getStr data "prompt" ""
  let sendln_param ← getStr data "sendln_param" ""
  let id ← getStr data "id" fresh_id
  let created_at ← getStr data "created_at" fresh_created
  let updated_at ← getStr data "updated_at" fresh_updated
  pure ⟨name, host, port, auth_type, username, password, key_path,
        prompt, sendln_param, id, created_at, updated_at⟩

/-- The fresh values from_dict's default factories would mint for one
record. -/
structure Fresh where
  id : String
  created : String
  updated : String

/-- storage.ConnectionStore.save's plaintext document:
json.dumps of a dict with the one key "connections". -/
def serializeConnections (l : List Connection) : JVal :=
  .obj [("connections", .arr (l.map (fun c => .obj c.to_dict)))]

/-- One element of the "connections" array: Connection.from_dict needs a
dict; any other value makes from_dict raise (caught by load). -/
def parseConn (j : JVal) (f : Fresh) : Option Connection :=
  match j with
  | .obj d => Connection.from_dict d f.id f.created f.updated
  | _ => none

/-- Hydrate the elements of the "connections" array in order, each with
its own fresh default-factory values. -/
def parseList (items : List JVal) (fresh : Nat → Fresh) (i : Nat) :
    Option (List Connection) :=
  match items with
  | [] => some []
  | j :: rest => do
      let c ← parseConn j (fresh i)
      let cs ← parseList rest fresh (i + 1)
      pure (c :: cs)

/-- data.get("connections", []) then per-record hydration: the top level
must be a dict (otherwise .get raises); a missing "connections" key
defaults to the empty list; a non-list value fails when iterated. -/
def parseConnections (j : JVal) (fresh : Nat → Fresh) :
    Option (List Connection) :=
  match j with
  | .obj d =>
    match jlookup "connections" d with
    | none => some []
    | some (.arr items) => parseList items fresh 0
    | some _ => none
  | _ => none

/-- decrypted.decode("utf-8") then json.loads then hydration: only a JSON
document plaintext parses. -/
def parseDoc (p : Plain) (fresh : Nat → Fresh) : Option (List Connection) :=
  match p with
  | .doc j => parseConnections j fresh
  | _ => none

/-- storage.MasterStore's persisted record (ttp_data/master.json): salt
and verify token.  The token slot holds whatever bytes are on disk, so
after external tampering it may be junk. -/
structure MasterRecord where
  salt : Salt
  verify_token : Blob

/-- The ttp_data directory: master.json and connections.enc, each either
absent or holding bytes.  This is all the state the stores touch. -/
structure DataDir where
  master : Option MasterRecord
  connections : Option Blob

/-- storage.MasterStore.setup: fresh salt, derive key, encrypt the verify
constant, overwrite master.json wholesale, return the key. -/
def MasterStore.setup (master_password : String) (salt : Salt)
    (nonce : Nat) (fs : DataDir) : Key × DataDir :=
  let key := derive_key master_password salt
  let token := create_verify_token key nonce
  (key, { fs with master := some ⟨salt, .tok token⟩ })

/-- Outcome of storage.MasterStore.unlock: the read of a missing
master.json raises FileNotFoundError (noRecord); otherwise the method
returns the derived key (success) or None (failure). -/
inductive UnlockResult
  | noRecord
  | failure
  | success (key : Key)
deriving DecidableEq, Repr

/-- The body of unlock once the record is read: derive the key from the
stored salt and check the verify token. -/
def MasterStore.unlockRecord (rec : MasterRecord)
    (master_password : String) : UnlockResult :=
  let key := derive_key master_password rec.salt
  if verify_master_password rec.verify_token key then .success key
  else .failure

/-- storage.MasterStore.unlock as a state transformer: it only reads, so
the state passes through unchanged on every path. -/
def MasterStore.unlock (fs : DataDir) (master_password : String) :
    UnlockResult × DataDir :=
  match fs.master with
  | none => (.noRecord, fs)
  | some rec => (MasterStore.unlockRecord rec master_password, fs)

/-- storage.ConnectionStore.load: absent or zero-length file gives [];
then try decrypt, decode, json.loads, hydrate; any exception gives []. -/
def ConnectionStore.load (fs : DataDir) (key : Key) (fresh : Nat → Fresh) :
    List Connection :=
  match fs.connections with
  | none => []
  | some .empty => []
  | some b =>
    match decryptBlob b key with
    | none => []
    | some p =>
      match parseDoc p fresh with
      | none => []
      | some l => l

/-- storage.ConnectionStore.save: serialize the list, encrypt under key
with this call's fresh randomness, write connections.enc. -/
def ConnectionStore.save (fs : DataDir) (connections : List Connection)
    (key : Key) (nonce : Nat) : DataDir :=
  let plaintext := Plain.doc (serializeConnections connections)
  let encrypted := encrypt plaintext key nonce
  { fs with connections := some (.tok encrypted) }

/-- storage.ConnectionStore.re_encrypt: load with the old key, save with
the new key, return True. -/
def ConnectionStore.re_encrypt (fs : DataDir) (old_key new_key : Key)
    (nonce : Nat) (fresh : Nat → Fresh) : Bool × DataDir :=
  let connections := ConnectionStore.load fs old_key fresh
  let fs2 := ConnectionStore.save fs connections new_key nonce
  (true, fs2)

/-- One file-system call made while persisting, for reasoning about
crash-safety: a direct whole-file write to a path, a write to a temporary
path, or an atomic rename. -/
inductive FsOp (α : Type)
  | write (path : String) (content : α)
  | writeTemp (path : String) (content : α)
  | rename (src : String) (dst : String)

/-- The file-system calls ConnectionStore.save performs, in order: the
body has exactly one, self._path.write_bytes(encrypted). -/
def ConnectionStore.saveOps (connections : List Connection) (key : Key)
    (nonce : Nat) : List (FsOp Blob) :=
  [FsOp.write "connections.enc"
    (.tok (encrypt (Plain.doc (serializeConnections connections)) key nonce))]

/-- The file-system calls MasterStore.setup performs, in order: exactly
one, self._path.write_text(json.dumps(data, indent=2)). -/
def MasterStore.setupOps (master_password : String) (salt : Salt)
    (nonce : Nat) : List (FsOp MasterRecord) :=
  [FsOp.write "master.json"
    ⟨salt, .tok (create_verify_token (derive_key master_password salt) nonce)⟩]

/-- The persistence discipline the specification demands: never write the
target path directly; instead write the new bytes to a temporary path and
atomically rename it over the target. -/
def atomicReplaceDiscipline {α : Type} (trace : List (FsOp α))
    (target : String) : Prop :=
  (∀ op ∈ trace, ∀ content, op ≠ FsOp.write target content) ∧
  (∃ tmp content, FsOp.writeTemp tmp content ∈ trace ∧
    FsOp.rename tmp target ∈ trace)

/-- app.TTPApp._on_duplicate, the part that builds the new profile:
deepcopy, fresh uuid4 id, name with the copy suffix appended, both
timestamps set to the duplication time. -/
def duplicateConnection (c : Connection) (fresh_id now : String) :
    Connection :=
  { c with id := fresh_id, name := c.name ++ " (コピー)",
           created_at := now, updated_at := now }

/-- Extraction with defaults, the value from_dict stores for a string
field (present well-typed value, else the default). -/
def getStrD (d : List (String × JVal)) (k dflt : String) : String :=
  match jlookup k d with
  | some (.s v) => v
  | _ => dflt

/-- Extraction with defaults for an integer field. -/
def getIntD (d : List (String × JVal)) (k : String) (dflt : Int) : Int :=
  match jlookup k d with
  | some (.n v) => v
  | _ => dflt

/-- The field at key k is absent or holds a string. -/
def strOk (d : List (String × JVal)) (k : String) : Bool :=
  match jlookup k d with
  | none => true
  | some (.s _) => true
  | some _ => false

/-- The field at key k is absent or holds an integer. -/
def intOk (d : List (String × JVal)) (k : String) : Bool :=
  match jlookup k d with
  | none => true
  | some (.n _) => true
  | some _ => false

/-- Every known Connection field that is present in the dict is
well-typed (unknown keys are unconstrained). -/
def wellTypedConnDict (d : List (String × JVal)) : Bool :=
  strOk d "name" && strOk d "host" && intOk d "port" &&
  strOk d "auth_type" && strOk d "username" && strOk d "password" &&
  strOk d "key_path" && strOk d "prompt" && strOk d "sendln_param" &&
  strOk d "id" && strOk d "created_at" && strOk d "updated_at"

/-! ## Sample values used in concrete instantiations -/

/-- A fixed default-factory supply. -/
def fresh0 : Nat → Fresh := fun _ => ⟨"fresh-id", "t0", "t0"⟩

/-- A key derived from one password and salt. -/
def key0 : Key := derive_key "p" 0

/-- A key derived from a different password and salt. -/
def key1 : Key := derive_key "q" 1

/-- A sample connection profile. -/
def conn0 : Connection :=
  ⟨"srv", "host1", 22, "password", "user", "pw", "", "", "", "id-1",
   "t1", "t1"⟩

/-- An empty data directory (fresh vault). -/
def dir0 : DataDir := ⟨none, none⟩

/-- The directory after saving the one-profile list under key0. -/
def fsSaved : DataDir := ConnectionStore.save dir0 [conn0] key0 0

/-- A profile dict with only the host field plus an unknown key. -/
def connDict0 : List (String × JVal) :=
  [("host", .s "h"), ("futureField", .s "x")]

/-! ## Helper lemmas -/

/-- Hydrating the dict produced by to_dict recovers the profile
field-for-field; the default factories are never consulted. -/
theorem from_dict_to_dict (c : Connection) (a b d : String) :
    Connection.from_dict c.to_dict a b d = some c := rfl

/-- Hydrating a serialized profile list recovers it element-for-element,
whatever fresh values stand by. -/
theorem parseList_map_to_dict (L : List Connection) (fresh : Nat → Fresh)
    (i : Nat) :
    parseList (L.map (fun c => JVal.obj c.to_dict)) fresh i = some L := by
  induction L generalizing i with
  | nil => rfl
  | cons c rest ih =>
    simp [parseList, parseConn, from_dict_to_dict, ih]

/-- Parsing the document save wrote recovers the saved list. -/
theorem parseDoc_serialize (L : List Connection) (fresh : Nat → Fresh) :
    parseDoc (Plain.doc (serializeConnections L)) fresh = some L := by
  simp [parseDoc, parseConnections, serializeConnections, jlookup,
    parseList_map_to_dict]

/-- Loading right after saving recovers the saved list. -/
theorem load_save (fs : DataDir) (L : List Connection) (K : Key)
    (nonce : Nat) (fresh : Nat → Fresh) :
    ConnectionStore.load (ConnectionStore.save fs L K nonce) K fresh = L := by
  simp [ConnectionStore.load, ConnectionStore.save, decryptBlob, decrypt,
    encrypt, parseDoc_serialize]

/-- Loading a directory whose blob is a saved document under K recovers
the document's list. -/
theorem load_saved_blob (fs : DataDir) (L : List Connection) (K : Key)
    (n0 : Nat) (fresh : Nat → Fresh)
    (h : fs.connections
      = some (Blob.tok (encrypt (Plain.doc (serializeConnections L)) K n0))) :
    ConnectionStore.load fs K fresh = L := by
  unfold ConnectionStore.load
  rw [h]
  simp [decryptBlob, decrypt, encrypt, parseDoc_serialize]

/-- Loading a token blob under a key other than its own gives []. -/
theorem load_wrong_key (fs : DataDir) (c : Ciphertext) (k : Key)
    (fresh : Nat → Fresh) (hb : fs.connections = some (Blob.tok c))
    (hk : c.key ≠ k) :
    ConnectionStore.load fs k fresh = [] := by
  unfold ConnectionStore.load
  rw [hb]
  simp [decryptBlob, decrypt, hk]

/-- The verify check succeeds exactly when the stored token decrypts
under the key to the fixed constant. -/
theorem verify_master_password_iff (t : Blob) (k : Key) :
    verify_master_password t k = true ↔
      decryptBlob t k = some Plain.verify := by
  unfold verify_master_password
  cases h : decryptBlob t k with
  | none => simp
  | some p => cases p <;> simp

/-- A well-typed string field extracts to its stored-or-default value. -/
theorem getStr_eq_getStrD (d : List (String × JVal)) (k dflt : String)
    (h : strOk d k = true) :
    getStr d k dflt = some (getStrD d k dflt) := by
  unfold strOk at h
  unfold getStr getStrD
  cases hj : jlookup k d with
  | none => rfl
  | some p => cases p <;> simp_all

/-- A well-typed integer field extracts to its stored-or-default value. -/
theorem getInt_eq_getIntD (d : List (String × JVal)) (k : String)
    (dflt : Int) (h : intOk d k = true) :
    getInt d k dflt = some (getIntD d k dflt) := by
  unfold intOk at h
  unfold getInt getIntD
  cases hj : jlookup k d with
  | none => rfl
  | some p => cases p <;> simp_all

/-- An absent string field defaults. -/
theorem getStrD_of_absent (d : List (String × JVal)) (k dflt : String)
    (h : jlookup k d = none) : getStrD d k dflt = dflt := by
  unfold getStrD
  rw [h]

/-- An absent integer field defaults. -/
theorem getIntD_of_absent (d : List (String × JVal)) (k : String)
    (dflt : Int) (h : jlookup k d = none) : getIntD d k dflt = dflt := by
  unfold getIntD
  rw [h]

/-! ## Claim theorems -/

/-- C1: for every list L of connection profiles (the empty list included)
and every key K, ConnectionStore.save of L under K followed by
ConnectionStore.load under K returns a list equal to L field-for-field,
ids and created/updated timestamps included. -/
theorem save_load_roundtrip (fs : DataDir) (L : List Connection) (K : Key)
    (nonce : Nat) (fresh : Nat → Fresh) :
    ConnectionStore.load (ConnectionStore.save fs L K nonce) K fresh = L :=
  load_save fs L K nonce fresh

/-- C2: after MasterStore.setup persists a master record for password P,
MasterStore.unlock with P succeeds and returns the derived key, while
unlock with any password Q different from P returns the
AuthenticationFailure outcome (None). -/
theorem setup_unlock_auth (fs : DataDir) (P Q : String) (salt : Salt)
    (nonce : Nat) (h : Q ≠ P) :
    (MasterStore.unlock (MasterStore.setup P salt nonce fs).2 P).1
      = UnlockResult.success (MasterStore.setup P salt nonce fs).1 ∧
    (MasterStore.unlock (MasterStore.setup P salt nonce fs).2 Q).1
      = UnlockResult.failure := by
  constructor
  · simp [MasterStore.unlock, MasterStore.setup, MasterStore.unlockRecord,
      verify_master_password, decryptBlob, decrypt, create_verify_token,
      encrypt, derive_key]
  · simp [MasterStore.unlock, MasterStore.setup, MasterStore.unlockRecord,
      verify_master_password, decryptBlob, decrypt, create_verify_token,
      encrypt, derive_key, Key.mk.injEq, Ne.symm h]

/-- Witness for C2 at the concrete scenario of the specification. -/
theorem setup_unlock_auth_witness :
    ("WrongPass" : String) ≠ "Secret1!" ∧
    ((MasterStore.unlock
        (MasterStore.setup "Secret1!" 0 0 dir0).2 "Secret1!").1
      = UnlockResult.success (MasterStore.setup "Secret1!" 0 0 dir0).1 ∧
     (MasterStore.unlock
        (MasterStore.setup "Secret1!" 0 0 dir0).2 "WrongPass").1
      = UnlockResult.failure) :=
  ⟨by decide,
   setup_unlock_auth dir0 "Secret1!" "WrongPass" 0 0 (by decide)⟩

/-- C3: ConnectionStore.load is a total function (the Python body catches
every exception): an absent blob, a zero-length blob, a blob no key
decrypts (junk bytes such as a bit-flipped token, or a token under a
different key), and an undecodable or unparsable plaintext all give the
empty list; and any non-empty result is exactly the honestly decrypted
and parsed content, never garbage. -/
theorem load_fail_safe (fs : DataDir) (key : Key) (fresh : Nat → Fresh) :
    (fs.connections = none → ConnectionStore.load fs key fresh = []) ∧
    (fs.connections = some Blob.empty →
      ConnectionStore.load fs key fresh = []) ∧
    (∀ b, fs.connections = some b → decryptBlob b key = none →
      ConnectionStore.load fs key fresh = []) ∧
    (∀ b p, fs.connections = some b → decryptBlob b key = some p →
      parseDoc p fresh = none → ConnectionStore.load fs key fresh = []) ∧
    (ConnectionStore.load fs key fresh = [] ∨
      ∃ b p, fs.connections = some b ∧ decryptBlob b key = some p ∧
        parseDoc p fresh = some (ConnectionStore.load fs key fresh)) := by
  obtain ⟨m, conn⟩ := fs
  cases conn with
  | none => simp [ConnectionStore.load]
  | some b =>
    cases b with
    | empty => simp [ConnectionStore.load, decryptBlob]
    | junk v => simp [ConnectionStore.load, decryptBlob]
    | tok c =>
      refine ⟨(by intro h; cases h), (by intro h; cases h), ?_, ?_, ?_⟩
      · intro b hb hd
        cases hb
        simp [ConnectionStore.load, hd]
      · intro b p hb hd hp
        cases hb
        simp [ConnectionStore.load, hd, hp]
      · cases hd : decryptBlob (Blob.tok c) key with
        | none => left; simp [ConnectionStore.load, hd]
        | some p =>
          cases hp : parseDoc p fresh with
          | none => left; simp [ConnectionStore.load, hd, hp]
          | some l =>
            right
            refine ⟨Blob.tok c, p, rfl, hd, ?_⟩
            simp [ConnectionStore.load, hd, hp]

/-- Witness for C3: each degraded case at a concrete state and key. -/
theorem load_fail_safe_witness :
    ConnectionStore.load ⟨none, none⟩ key0 fresh0 = [] ∧
    ConnectionStore.load ⟨none, some Blob.empty⟩ key0 fresh0 = [] ∧
    ConnectionStore.load ⟨none, some (Blob.junk 7)⟩ key0 fresh0 = [] ∧
    ConnectionStore.load ⟨none, some (Blob.tok (encrypt (Plain.raw 3)
      key1 0))⟩ key0 fresh0 = [] ∧
    ConnectionStore.load ⟨none, some (Blob.tok (encrypt (Plain.raw 3)
      key0 0))⟩ key0 fresh0 = [] :=
  ⟨(load_fail_safe ⟨none, none⟩ key0 fresh0).1 rfl,
   (load_fail_safe ⟨none, some Blob.empty⟩ key0 fresh0).2.1 rfl,
   (load_fail_safe ⟨none, some (Blob.junk 7)⟩ key0 fresh0).2.2.1 _ rfl rfl,
   (load_fail_safe _ key0 fresh0).2.2.1 _ rfl (by
      simp [decryptBlob, decrypt, encrypt, key0, key1, derive_key]),
   (load_fail_safe _ key0 fresh0).2.2.2.1 _ (Plain.raw 3) rfl (by
      simp [decryptBlob, decrypt, encrypt]) rfl⟩

/-- C6: unlock on a persisted record succeeds exactly when the stored
token decrypts under the derived key to the fixed verification constant,
and every failure cause (undecryptable token, tampered/junk token, or a
plaintext mismatching the constant) collapses into the one failure
outcome. -/
theorem unlock_collapses_failures (rec : MasterRecord) (P : String)
    (k : Key) :
    (MasterStore.unlockRecord rec P = UnlockResult.success k ↔
      (decryptBlob rec.verify_token (derive_key P rec.salt)
          = some Plain.verify ∧ k = derive_key P rec.salt)) ∧
    (MasterStore.unlockRecord rec P
        = UnlockResult.success (derive_key P rec.salt) ∨
      MasterStore.unlockRecord rec P = UnlockResult.failure) := by
  have hv := verify_master_password_iff rec.verify_token
    (derive_key P rec.salt)
  unfold MasterStore.unlockRecord
  by_cases h : verify_master_password rec.verify_token
      (derive_key P rec.salt) = true
  · rw [if_pos h]
    simp [hv.mp h, eq_comm]
  · rw [if_neg h]
    rw [hv] at h
    simp [h]

/-- C7: unlock modifies no persisted state under any outcome; the whole
data directory (master record and connection blob) passes through
unchanged. -/
theorem unlock_no_writes (fs : DataDir) (P : String) :
    (MasterStore.unlock fs P).2 = fs := by
  unfold MasterStore.unlock
  rcases fs with ⟨m, c⟩
  cases m <;> rfl

/-- C4 counterexample: at a concrete input, the persistence traces of
ConnectionStore.save and MasterStore.setup violate the
temporary-file-plus-atomic-rename discipline the claim asserts — the one
operation each performs is a direct write to the target path. -/
theorem save_setup_not_atomic_cex :
    ¬ atomicReplaceDiscipline (ConnectionStore.saveOps [] key0 0)
        "connections.enc" ∧
    ¬ atomicReplaceDiscipline (MasterStore.setupOps "Secret1!" 0 0)
        "master.json" := by
  constructor
  · intro h
    exact h.1 (FsOp.write "connections.enc"
      (Blob.tok (encrypt (Plain.doc (serializeConnections [])) key0 0)))
      (by simp [ConnectionStore.saveOps]) _ rfl
  · intro h
    exact h.1 (FsOp.write "master.json"
      ⟨0, Blob.tok (create_verify_token (derive_key "Secret1!" 0) 0)⟩)
      (by simp [MasterStore.setupOps]) _ rfl

/-- C4 amended: save and setup persist by a single direct whole-file
write of the complete new bytes to the final path; no temporary-file
write and no rename occur, so the temp-plus-atomic-replace crash safety
the claim describes is not provided by the code. -/
theorem save_setup_direct_write (L : List Connection) (K : Key)
    (P : String) (salt : Salt) (n m : Nat) :
    (∀ op ∈ ConnectionStore.saveOps L K n,
      ∃ content, op = FsOp.write "connections.enc" content) ∧
    FsOp.write "connections.enc"
        (Blob.tok (encrypt (Plain.doc (serializeConnections L)) K n))
      ∈ ConnectionStore.saveOps L K n ∧
    (∀ op ∈ MasterStore.setupOps P salt m,
      ∃ content, op = FsOp.write "master.json" content) ∧
    FsOp.write "master.json"
        ⟨salt, Blob.tok (create_verify_token (derive_key P salt) m)⟩
      ∈ MasterStore.setupOps P salt m := by
  refine ⟨?_, ?_, ?_, ?_⟩
  · intro op hop
    simp [ConnectionStore.saveOps] at hop
    exact ⟨_, hop⟩
  · simp [ConnectionStore.saveOps]
  · intro op hop
    simp [MasterStore.setupOps] at hop
    exact ⟨_, hop⟩
  · simp [MasterStore.setupOps]

/-- Witness for the amended C4 at a concrete profile list and record. -/
theorem save_setup_direct_write_witness :
    (∃ content, FsOp.write "connections.enc"
        (Blob.tok (encrypt (Plain.doc (serializeConnections [conn0]))
          key0 0))
      = FsOp.write "connections.enc" content) ∧
    (∃ content, FsOp.write "master.json"
        (⟨0, Blob.tok (create_verify_token (derive_key "Secret1!" 0) 0)⟩
          : MasterRecord)
      = FsOp.write "master.json" content) :=
  ⟨(save_setup_direct_write [conn0] key0 "Secret1!" 0 0 0).1 _
      (by simp [ConnectionStore.saveOps]),
   (save_setup_direct_write [conn0] key0 "Secret1!" 0 0 0).2.2.1 _
      (by simp [MasterStore.setupOps])⟩

/-- C5 counterexample: with oldK = newK the claim's "a load with oldK no
longer reproduces the data (returns empty)" fails — after re_encrypt of
a one-profile vault with the same key on both sides, loading with oldK
still returns the profile. -/
theorem re_encrypt_same_key_cex :
    ConnectionStore.load
        (ConnectionStore.re_encrypt fsSaved key0 key0 1 fresh0).2
        key0 fresh0 = [conn0] ∧
    ([conn0] : List Connection) ≠ [] := by
  constructor
  · have h1 : ConnectionStore.load fsSaved key0 fresh0 = [conn0] :=
      load_save dir0 [conn0] key0 0 fresh0
    show ConnectionStore.load (ConnectionStore.save fsSaved
      (ConnectionStore.load fsSaved key0 fresh0) key0 1) key0 fresh0
      = [conn0]
    rw [h1]
    exact load_save fsSaved [conn0] key0 1 fresh0
  · decide

/-- C5 amended: re_encrypt is save of load as the claim states, and for
a vault saved under oldK, loading with newK after rotation returns the
exact pre-rotation list, while — provided newK differs from oldK —
loading with oldK returns empty. -/
theorem re_encrypt_rotation (fs : DataDir) (L : List Connection)
    (oldK newK : Key) (n0 n : Nat) (fresh fresh2 : Nat → Fresh)
    (h : fs.connections = some (Blob.tok
      (encrypt (Plain.doc (serializeConnections L)) oldK n0))) :
    ConnectionStore.re_encrypt fs oldK newK n fresh
      = (true, ConnectionStore.save fs
          (ConnectionStore.load fs oldK fresh) newK n) ∧
    ConnectionStore.load
        (ConnectionStore.re_encrypt fs oldK newK n fresh).2 newK fresh2
      = L ∧
    (oldK ≠ newK →
      ConnectionStore.load
          (ConnectionStore.re_encrypt fs oldK newK n fresh).2 oldK fresh2
        = []) := by
  have hload : ConnectionStore.load fs oldK fresh = L :=
    load_saved_blob fs L oldK n0 fresh h
  refine ⟨rfl, ?_, ?_⟩
  · show ConnectionStore.load (ConnectionStore.save fs
      (ConnectionStore.load fs oldK fresh) newK n) newK fresh2 = L
    rw [hload]
    exact load_save fs L newK n fresh2
  · intro hk
    refine load_wrong_key _ (encrypt (Plain.doc (serializeConnections
      (ConnectionStore.load fs oldK fresh))) newK n) oldK fresh2 rfl ?_
    exact Ne.symm hk

/-- Witness for the amended C5 at a concrete vault and distinct keys. -/
theorem re_encrypt_rotation_witness :
    fsSaved.connections = some (Blob.tok
      (encrypt (Plain.doc (serializeConnections [conn0])) key0 0)) ∧
    key0 ≠ key1 ∧
    ConnectionStore.load
        (ConnectionStore.re_encrypt fsSaved key0 key1 1 fresh0).2
        key1 fresh0 = [conn0] ∧
    ConnectionStore.load
        (ConnectionStore.re_encrypt fsSaved key0 key1 1 fresh0).2
        key0 fresh0 = [] :=
  ⟨rfl, by decide,
   (re_encrypt_rotation fsSaved [conn0] key0 key1 0 1 fresh0 fresh0
     rfl).2.1,
   (re_encrypt_rotation fsSaved [conn0] key0 key1 0 1 fresh0 fresh0
     rfl).2.2 (by decide)⟩

/-- C8 counterexample: duplication does not copy the name verbatim — the
handler appends the copy suffix to it. -/
theorem duplicate_name_cex :
    (duplicateConnection conn0 "id-2" "t2").name ≠ conn0.name := by
  decide

/-- C8 amended: duplication takes the fresh uuid4 id (distinct from the
original's), sets both timestamps to the duplication time, copies host,
port, auth type, username, secret, key path, prompt and post-login
command verbatim, and sets the name to the original name with the copy
suffix appended (not verbatim). -/
theorem duplicate_fields (c : Connection) (fid now : String)
    (h : fid ≠ c.id) :
    (duplicateConnection c fid now).id = fid ∧
    (duplicateConnection c fid now).id ≠ c.id ∧
    (duplicateConnection c fid now).created_at = now ∧
    (duplicateConnection c fid now).updated_at = now ∧
    (duplicateConnection c fid now).name = c.name ++ " (コピー)" ∧
    (duplicateConnection c fid now).host = c.host ∧
    (duplicateConnection c fid now).port = c.port ∧
    (duplicateConnection c fid now).auth_type = c.auth_type ∧
    (duplicateConnection c fid now).username = c.username ∧
    (duplicateConnection c fid now).password = c.password ∧
    (duplicateConnection c fid now).key_path = c.key_path ∧
    (duplicateConnection c fid now).prompt = c.prompt ∧
    (duplicateConnection c fid now).sendln_param = c.sendln_param :=
  ⟨rfl, h, rfl, rfl, rfl, rfl, rfl, rfl, rfl, rfl, rfl, rfl, rfl⟩

/-- Witness for the amended C8 at a concrete profile. -/
theorem duplicate_fields_witness :
    ("id-2" : String) ≠ conn0.id ∧
    ((duplicateConnection conn0 "id-2" "t2").id = "id-2" ∧
     (duplicateConnection conn0 "id-2" "t2").id ≠ conn0.id ∧
     (duplicateConnection conn0 "id-2" "t2").created_at = "t2" ∧
     (duplicateConnection conn0 "id-2" "t2").updated_at = "t2" ∧
     (duplicateConnection conn0 "id-2" "t2").name
        = conn0.name ++ " (コピー)" ∧
     (duplicateConnection conn0 "id-2" "t2").host = conn0.host ∧
     (duplicateConnection conn0 "id-2" "t2").port = conn0.port ∧
     (duplicateConnection conn0 "id-2" "t2").auth_type = conn0.auth_type ∧
     (duplicateConnection conn0 "id-2" "t2").username = conn0.username ∧
     (duplicateConnection conn0 "id-2" "t2").password = conn0.password ∧
     (duplicateConnection conn0 "id-2" "t2").key_path = conn0.key_path ∧
     (duplicateConnection conn0 "id-2" "t2").prompt = conn0.prompt ∧
     (duplicateConnection conn0 "id-2" "t2").sendln_param
        = conn0.sendln_param) :=
  ⟨by decide, duplicate_fields conn0 "id-2" "t2" (by decide)⟩

/-- C9: when old_key cannot decrypt the existing blob, re_encrypt does
not fail — the degraded empty load is saved under new_key, overwriting
the blob with an encryption of the empty list, the operation returns
True, and afterwards every key loads the empty list: the existing
profiles are irrecoverably destroyed while success is reported. -/
theorem re_encrypt_wrong_key_destroys (fs : DataDir) (c : Ciphertext)
    (oldK newK : Key) (n : Nat) (fresh : Nat → Fresh)
    (hb : fs.connections = some (Blob.tok c))
    (hk : decrypt c oldK = none) :
    (ConnectionStore.re_encrypt fs oldK newK n fresh).1 = true ∧
    (ConnectionStore.re_encrypt fs oldK newK n fresh).2.connections
      = some (Blob.tok (encrypt (Plain.doc (serializeConnections []))
          newK n)) ∧
    ∀ k fresh2, ConnectionStore.load
        (ConnectionStore.re_encrypt fs oldK newK n fresh).2 k fresh2
      = [] := by
  have hkey : c.key ≠ oldK := by
    intro he
    simp [decrypt, he] at hk
  have hload : ConnectionStore.load fs oldK fresh = [] :=
    load_wrong_key fs c oldK fresh hb hkey
  refine ⟨rfl, ?_, ?_⟩
  · show (ConnectionStore.save fs (ConnectionStore.load fs oldK fresh)
      newK n).connections = _
    rw [hload]
    rfl
  · intro k fresh2
    by_cases hkn : k = newK
    · subst hkn
      show ConnectionStore.load (ConnectionStore.save fs
        (ConnectionStore.load fs oldK fresh) k n) k fresh2 = []
      rw [hload]
      exact load_save fs [] k n fresh2
    · refine load_wrong_key _ (encrypt (Plain.doc (serializeConnections
        (ConnectionStore.load fs oldK fresh))) newK n) k fresh2 rfl ?_
      exact fun he => hkn he.symm

/-- Witness for C9: a vault saved under key0 rotated with the wrong old
key key1; the pre-existing profile is gone and True was returned. -/
theorem re_encrypt_wrong_key_destroys_witness :
    fsSaved.connections = some (Blob.tok
      (encrypt (Plain.doc (serializeConnections [conn0])) key0 0)) ∧
    decrypt (encrypt (Plain.doc (serializeConnections [conn0])) key0 0)
      key1 = none ∧
    (ConnectionStore.re_encrypt fsSaved key1 key1 2 fresh0).1 = true ∧
    ConnectionStore.load
        (ConnectionStore.re_encrypt fsSaved key1 key1 2 fresh0).2
        key0 fresh0 = [] :=
  ⟨rfl, rfl,
   (re_encrypt_wrong_key_destroys fsSaved _ key1 key1 2 fresh0 rfl
     rfl).1,
   (re_encrypt_wrong_key_destroys fsSaved _ key1 key1 2 fresh0 rfl
     rfl).2.2 key0 fresh0⟩

/-- C10: from_dict tolerates unknown extra keys and missing known keys:
for any dict whose present known fields are well-typed it succeeds
(never raises), substituting the dataclass defaults for every absent
field — port 22, auth_type "password", empty strings, and the
default-factory values: the fresh uuid4 id and the current-time
created/updated timestamps. -/
theorem from_dict_tolerant (d : List (String × JVal))
    (fid fcr fup : String) (h : wellTypedConnDict d = true) :
    ∃ c, Connection.from_dict d fid fcr fup = some c ∧
      (jlookup "name" d = none → c.name = "") ∧
      (jlookup "host" d = none → c.host = "") ∧
      (jlookup "port" d = none → c.port = 22) ∧
      (jlookup "auth_type" d = none → c.auth_type = "password") ∧
      (jlookup "username" d = none → c.username = "") ∧
      (jlookup "password" d = none → c.password = "") ∧
      (jlookup "key_path" d = none → c.key_path = "") ∧
      (jlookup "prompt" d = none → c.prompt = "") ∧
      (jlookup "sendln_param" d = none → c.sendln_param = "") ∧
      (jlookup "id" d = none → c.id = fid) ∧
      (jlookup "created_at" d = none → c.created_at = fcr) ∧
      (jlookup "updated_at" d = none → c.updated_at = fup) := by
  unfold wellTypedConnDict at h
  simp only [Bool.and_eq_true, and_assoc] at h
  obtain ⟨h1, h2, h3, h4, h5, h6, h7, h8, h9, h10, h11, h12⟩ := h
  refine ⟨⟨getStrD d "name" "", getStrD d "host" "", getIntD d "port" 22,
    getStrD d "auth_type" "password", getStrD d "username" "",
    getStrD d "password" "", getStrD d "key_path" "",
    getStrD d "prompt" "", getStrD d "sendln_param" "",
    getStrD d "id" fid, getStrD d "created_at" fcr,
    getStrD d "updated_at" fup⟩, ?_, ?_, ?_, ?_, ?_, ?_, ?_, ?_, ?_, ?_,
    ?_, ?_, ?_⟩
  · simp [Connection.from_dict,
      getStr_eq_getStrD d "name" "" h1,
      getStr_eq_getStrD d "host" "" h2,
      getInt_eq_getIntD d "port" 22 h3,
      getStr_eq_getStrD d "auth_type" "password" h4,
      getStr_eq_getStrD d "username" "" h5,
      getStr_eq_getStrD d "password" "" h6,
      getStr_eq_getStrD d "key_path" "" h7,
      getStr_eq_getStrD d "prompt" "" h8,
      getStr_eq_getStrD d "sendln_param" "" h9,
      getStr_eq_getStrD d "id" fid h10,
      getStr_eq_getStrD d "created_at" fcr h11,
      getStr_eq_getStrD d "updated_at" fup h12]
  · exact fun hn => getStrD_of_absent d "name" "" hn
  · exact fun hn => getStrD_of_absent d "host" "" hn
  · exact fun hn => getIntD_of_absent d "port" 22 hn
  · exact fun hn => getStrD_of_absent d "auth_type" "password" hn
  · exact fun hn => getStrD_of_absent d "username" "" hn
  · exact fun hn => getStrD_of_absent d "password" "" hn
  · exact fun hn => getStrD_of_absent d "key_path" "" hn
  · exact fun hn => getStrD_of_absent d "prompt" "" hn
  · exact fun hn => getStrD_of_absent d "sendln_param" "" hn
  · exact fun hn => getStrD_of_absent d "id" fid hn
  · exact fun hn => getStrD_of_absent d "created_at" fcr hn
  · exact fun hn => getStrD_of_absent d "updated_at" fup hn

/-- Witness for C10: a dict holding only the host plus an unknown key
hydrates, every other field defaulted. -/
theorem from_dict_tolerant_witness :
    wellTypedConnDict connDict0 = true ∧
    (∃ c, Connection.from_dict connDict0 "fid-0" "tc-0" "tu-0" = some c ∧
      (jlookup "name" connDict0 = none → c.name = "") ∧
      (jlookup "host" connDict0 = none → c.host = "") ∧
      (jlookup "port" connDict0 = none → c.port = 22) ∧
      (jlookup "auth_type" connDict0 = none → c.auth_type = "password") ∧
      (jlookup "username" connDict0 = none → c.username = "") ∧
      (jlookup "password" connDict0 = none → c.password = "") ∧
      (jlookup "key_path" connDict0 = none → c.key_path = "") ∧
      (jlookup "prompt" connDict0 = none → c.prompt = "") ∧
      (jlookup "sendln_param" connDict0 = none → c.sendln_param = "") ∧
      (jlookup "id" connDict0 = none → c.id = "fid-0") ∧
      (jlookup "created_at" connDict0 = none → c.created_at = "tc-0") ∧
      (jlookup "updated_at" connDict0 = none → c.updated_at = "tu-0")) :=
  ⟨rfl, from_dict_tolerant connDict0 "fid-0" "tc-0" "tu-0" rfl⟩

end TTP
